import Mathlib

/-!
Shallow embedding of the two Flask `/chat` handlers of this repository:
`src/chatbot.py` (remote OpenAI variant) and `src/app.py` (local GPT-2
variant), together with theorems checking the specification's claims.

Modelling conventions:
* A parsed JSON object is a `List (String × JValue)`; the result of
  `request.get_json(force=True)` is `Except String Obj`, where `.error e`
  stands for a parse exception with message `e`.
* `HttpResponse.headers` records exactly the headers the handler code adds
  itself (`response.headers.add(...)`); framework-supplied headers are out
  of scope, as the spec marks CORS middleware and the server runtime
  out of scope.
* The generation backends are parameters: the remote one maps a
  `CompletionRequest` to `Except String Completion` (`.error e` = an
  exception with message `e`), the local one is the triple
  encode / generate / decode.
* Python `str.strip()` is `pyStripString` (whitespace removal at both
  ends); calling `.strip()` on a non-string raises, modelled by `pyStrip`
  returning `.error`.
* The remote handler also returns the list of completion requests it
  issued to the backend, so that claims about when the backend is invoked
  are statable.
-/

/-- JSON values, as far as the two handlers inspect them. -/
inductive JValue where
  | str (s : String)
  | num (n : Int)
  | bool (b : Bool)
  | null
deriving DecidableEq

/-- A parsed JSON object body. -/
abbrev Obj := List (String × JValue)

/-- An HTTP response as built by the handlers: status code, JSON object
body, and the headers the handler itself attached. -/
structure HttpResponse where
  status : Nat
  body : Obj
  headers : List (String × String)
deriving DecidableEq

/-- The HTTP methods the two routes mention. -/
inductive Method where
  | POST
  | OPTIONS
deriving DecidableEq

/-- Python `dict.get(k, default)`. -/
def dictGet (d : Obj) (k : String) (dflt : JValue) : JValue :=
  match d.find? (fun p => p.1 == k) with
  | some p => p.2
  | none => dflt

/-- Python `dict.get(k)` (default `None`). -/
def dictGetOpt (d : Obj) (k : String) : Option JValue :=
  match d.find? (fun p => p.1 == k) with
  | some p => some p.2
  | none => none

/-- The ASCII whitespace characters removed by Python `str.strip()`. -/
def isPySpace (c : Char) : Bool :=
  c == ' ' || c == '\t' || c == '\n' || c == '\r' || c == '\x0b' || c == '\x0c'

/-- Drop leading whitespace characters. -/
def dropSpaces : List Char → List Char
  | [] => []
  | c :: t => if isPySpace c then dropSpaces t else c :: t

/-- Python `s.strip()` on a string: remove whitespace at both ends. -/
def pyStripString (s : String) : String :=
  String.mk ((dropSpaces (dropSpaces s.data).reverse).reverse)

/-- Python `v.strip()`: trims whitespace when `v` is a string, raises
`AttributeError` otherwise. -/
def pyStrip : JValue → Except String String
  | JValue.str s => Except.ok (pyStripString s)
  | _ => Except.error "AttributeError: object has no attribute strip"

/-- One chat message of the OpenAI request (`{"role": ..., "content": ...}`). -/
structure ChatMessage where
  role : String
  content : String
deriving DecidableEq

/-- One returned candidate of the completion API. -/
structure Choice where
  message : ChatMessage
deriving DecidableEq

/-- The completion object returned by the API (`completion.choices`). -/
structure Completion where
  choices : List Choice
deriving DecidableEq

/-- The argument of `client.chat.completions.create` in `src/chatbot.py`. -/
structure CompletionRequest where
  model : String
  messages : List ChatMessage
  temperature : ℚ
  max_tokens : Nat
deriving DecidableEq

/-- The fixed system message of `src/chatbot.py` line 49. -/
def systemMessage : ChatMessage :=
  { role := "system"
    content := "You are an expert in international relations and geopolitics." }

/-- Literal text of the user template before the first country name. -/
def promptHead : String :=
  "Provide a detailed analysis of the relationship between "

/-- Literal text of the user template between the two country names. -/
def promptMid : String := " and "

/-- Literal text of the user template after the second country name
(`src/chatbot.py` lines 50-55, whitespace as in the f-string). -/
def promptTail : String :=
  ", covering:\n                    1. Current diplomatic relations\n                    2. Economic partnerships and trade\n                    3. Historical context and key events, including wars and changes that happened because of it\n                    4. Current challenges and opportunities\n                    Please provide factual, up-to-date information, and keep it under 400 words"

/-- The user prompt built by the f-string of `src/chatbot.py` lines 50-55. -/
def userPrompt (c1 c2 : String) : String :=
  promptHead ++ (c1 ++ (promptMid ++ (c2 ++ promptTail)))

/-- The completion request issued by `src/chatbot.py` lines 46-59. -/
def buildCompletionRequest (c1 c2 : String) : CompletionRequest :=
  { model := "gpt-3.5-turbo"
    messages := [systemMessage, { role := "user", content := userPrompt c1 c2 }]
    temperature := 0.7
    max_tokens := 500 }

/-- The `try:` block of the POST path of `src/chatbot.py` (lines 29-67):
either a normal response (`.ok`) or a raised exception with its message
(`.error`), paired with the list of backend calls made. -/
def postBody (backend : CompletionRequest → Except String Completion)
    (body : Except String Obj) :
    Except String HttpResponse × List CompletionRequest :=
  match body with
  | Except.error e => (Except.error e, [])
  | Except.ok data =>
    match pyStrip (dictGet data "country1" (JValue.str "")) with
    | Except.error e => (Except.error e, [])
    | Except.ok country1 =>
      match pyStrip (dictGet data "country2" (JValue.str "")) with
      | Except.error e => (Except.error e, [])
      | Except.ok country2 =>
        if country1 = "" ∨ country2 = "" then
          (Except.ok { status := 400
                       body := [("error", JValue.str "Both countries are required")]
                       headers := [] }, [])
        else
          let req := buildCompletionRequest country1 country2
          match backend req with
          | Except.error e => (Except.error e, [req])
          | Except.ok completion =>
            match completion.choices with
            | [] => (Except.error "IndexError: list index out of range", [req])
            | c :: _ =>
              (Except.ok { status := 200
                           body := [("response", JValue.str c.message.content)]
                           headers := [("Access-Control-Allow-Origin", "*")] }, [req])

/-- The `/chat` handler of `src/chatbot.py` (function `chat`, lines 19-73):
OPTIONS branch, then the `try`/`except` around the POST path. The second
component is the list of completion requests sent to the backend. -/
def chatbotChat (backend : CompletionRequest → Except String Completion)
    (method : Method) (body : Except String Obj) :
    HttpResponse × List CompletionRequest :=
  match method with
  | Method.OPTIONS =>
    ({ status := 200
       body := [("status", JValue.str "ok")]
       headers := [("Access-Control-Allow-Origin", "*"),
                   ("Access-Control-Allow-Headers", "Content-Type"),
                   ("Access-Control-Allow-Methods", "POST")] }, [])
  | Method.POST =>
    match postBody backend body with
    | (Except.ok r, tr) => (r, tr)
    | (Except.error e, tr) =>
      ({ status := 500
         body := [("error", JValue.str e)]
         headers := [] }, tr)

/-- The keyword arguments of `model.generate` in `src/app.py` line 25. -/
structure GenParams where
  max_length : Nat
  num_return_sequences : Nat
  no_repeat_ngram_size : Nat
deriving DecidableEq

/-- The methods declared on the `/chat` route of `src/app.py` line 11:
`methods=["POST"]` only. -/
def appChatMethods : List Method := [Method.POST]

/-- The `/chat` handler of `src/app.py` (function `chat`, lines 12-30),
parameterised by the tokenizer/model capabilities. `.error e` is an
unhandled exception with message `e` (the local variant has no
`try`/`except`). -/
def appChat (encode : String → List Nat)
    (generate : List Nat → GenParams → List (List Nat))
    (decode : List Nat → Bool → String)
    (method : Method) (body : Obj) : Except String HttpResponse :=
  match method with
  | Method.OPTIONS =>
    Except.ok { status := 200
                body := []
                headers := [("Access-Control-Allow-Origin", "*"),
                            ("Access-Control-Allow-Headers", "Content-Type"),
                            ("Access-Control-Allow-Methods", "POST")] }
  | Method.POST =>
    match dictGetOpt body "message" with
    | some (JValue.str user_input) =>
      let inputs := encode user_input
      match generate inputs { max_length := 100
                              num_return_sequences := 1
                              no_repeat_ngram_size := 2 } with
      | [] => Except.error "IndexError: index out of range"
      | o :: _ =>
        Except.ok { status := 200
                    body := [("response", JValue.str (decode o true))]
                    headers := [("Access-Control-Allow-Origin", "*")] }
    | _ => Except.error "TypeError: text input must be of type str"

/-- Status of a local-variant outcome: `none` when the handler raised. -/
def respStatus : Except String HttpResponse → Option Nat
  | Except.ok r => some r.status
  | Except.error _ => none

/-- Whether `pat` occurs at the start of `l`. -/
def seqAtStart : List Char → List Char → Bool
  | _, [] => true
  | [], _ :: _ => false
  | a :: as, b :: bs => a == b && seqAtStart as bs

/-- Whether `pat` occurs somewhere inside `l`. -/
def seqSomewhere : List Char → List Char → Bool
  | [], pat => pat.isEmpty
  | a :: t, pat => seqAtStart (a :: t) pat || seqSomewhere t pat

/-- Substring test used to state claims about the prompt template. -/
def strContains (s pat : String) : Bool :=
  seqSomewhere s.data pat.data

/-- A concrete backend used for witnesses: one candidate with fixed text. -/
def demoBackend (_ : CompletionRequest) : Except String Completion :=
  Except.ok { choices := [{ message := { role := "assistant", content := "demo analysis text" } }] }

/-- A concrete backend that always raises. -/
def failBackend (_ : CompletionRequest) : Except String Completion :=
  Except.error "boom"

/-- A concrete backend whose single candidate has empty text. -/
def emptyBackend (_ : CompletionRequest) : Except String Completion :=
  Except.ok { choices := [{ message := { role := "assistant", content := "" } }] }

/-- A concrete tokenizer encode for witnesses: code points of the text. -/
def demoEncode (s : String) : List Nat :=
  s.data.map Char.toNat

/-- A concrete generate for witnesses: echoes the input tokens. -/
def demoGenerate (inputs : List Nat) (_ : GenParams) : List (List Nat) :=
  [inputs]

/-- A concrete decode for witnesses: code points back to text. -/
def demoDecode (toks : List Nat) (_ : Bool) : String :=
  String.mk (toks.map Char.ofNat)

theorem chatbotChat_POST_of_ok {backend : CompletionRequest → Except String Completion}
    {body : Except String Obj} {r : HttpResponse} {tr : List CompletionRequest}
    (h : postBody backend body = (Except.ok r, tr)) :
    chatbotChat backend Method.POST body = (r, tr) := by
  simp only [chatbotChat, h]

theorem chatbotChat_POST_of_error {backend : CompletionRequest → Except String Completion}
    {body : Except String Obj} {e : String} {tr : List CompletionRequest}
    (h : postBody backend body = (Except.error e, tr)) :
    chatbotChat backend Method.POST body =
      ({ status := 500, body := [("error", JValue.str e)], headers := [] }, tr) := by
  simp only [chatbotChat, h]

theorem postBody_parse_error (backend : CompletionRequest → Except String Completion)
    (e : String) :
    postBody backend (Except.error e) = (Except.error e, []) := rfl

theorem postBody_strip1_error {data : Obj} {e : String}
    (backend : CompletionRequest → Except String Completion)
    (h1 : pyStrip (dictGet data "country1" (JValue.str "")) = Except.error e) :
    postBody backend (Except.ok data) = (Except.error e, []) := by
  simp only [postBody, h1]

theorem postBody_reject {data : Obj} {c1 c2 : String}
    (backend : CompletionRequest → Except String Completion)
    (h1 : pyStrip (dictGet data "country1" (JValue.str "")) = Except.ok c1)
    (h2 : pyStrip (dictGet data "country2" (JValue.str "")) = Except.ok c2)
    (hv : c1 = "" ∨ c2 = "") :
    postBody backend (Except.ok data) =
      (Except.ok { status := 400
                   body := [("error", JValue.str "Both countries are required")]
                   headers := [] }, []) := by
  simp only [postBody, h1, h2, if_pos hv]

theorem postBody_backend_error {data : Obj} {c1 c2 e : String}
    {backend : CompletionRequest → Except String Completion}
    (h1 : pyStrip (dictGet data "country1" (JValue.str "")) = Except.ok c1)
    (h2 : pyStrip (dictGet data "country2" (JValue.str "")) = Except.ok c2)
    (hc1 : c1 ≠ "") (hc2 : c2 ≠ "")
    (hb : backend (buildCompletionRequest c1 c2) = Except.error e) :
    postBody backend (Except.ok data) =
      (Except.error e, [buildCompletionRequest c1 c2]) := by
  have hv : ¬ (c1 = "" ∨ c2 = "") := by
    intro hor
    cases hor with
    | inl h => exact hc1 h
    | inr h => exact hc2 h
  simp only [postBody, h1, h2, if_neg hv, hb]

theorem postBody_success {data : Obj} {c1 c2 : String}
    {backend : CompletionRequest → Except String Completion}
    {comp : Completion} {c : Choice} {rest : List Choice}
    (h1 : pyStrip (dictGet data "country1" (JValue.str "")) = Except.ok c1)
    (h2 : pyStrip (dictGet data "country2" (JValue.str "")) = Except.ok c2)
    (hc1 : c1 ≠ "") (hc2 : c2 ≠ "")
    (hb : backend (buildCompletionRequest c1 c2) = Except.ok comp)
    (hch : comp.choices = c :: rest) :
    postBody backend (Except.ok data) =
      (Except.ok { status := 200
                   body := [("response", JValue.str c.message.content)]
                   headers := [("Access-Control-Allow-Origin", "*")] },
       [buildCompletionRequest c1 c2]) := by
  have hv : ¬ (c1 = "" ∨ c2 = "") := by
    intro hor
    cases hor with
    | inl h => exact hc1 h
    | inr h => exact hc2 h
  simp only [postBody, h1, h2, if_neg hv, hb, hch]

theorem chatbotChat_post_shape (backend : CompletionRequest → Except String Completion)
    (body : Except String Obj) :
    (∃ e tr, chatbotChat backend Method.POST body =
      ({ status := 500, body := [("error", JValue.str e)], headers := [] }, tr))
  ∨ chatbotChat backend Method.POST body =
      ({ status := 400, body := [("error", JValue.str "Both countries are required")],
         headers := [] }, [])
  ∨ (∃ t req, chatbotChat backend Method.POST body =
      ({ status := 200, body := [("response", JValue.str t)],
         headers := [("Access-Control-Allow-Origin", "*")] }, [req])) := by
  cases body with
  | error e =>
    exact Or.inl ⟨e, [], chatbotChat_POST_of_error (postBody_parse_error backend e)⟩
  | ok data =>
    cases h1 : pyStrip (dictGet data "country1" (JValue.str "")) with
    | error e =>
      exact Or.inl ⟨e, [], chatbotChat_POST_of_error (postBody_strip1_error backend h1)⟩
    | ok c1 =>
      cases h2 : pyStrip (dictGet data "country2" (JValue.str "")) with
      | error e =>
        refine Or.inl ⟨e, [], chatbotChat_POST_of_error ?_⟩
        simp only [postBody, h1, h2]
      | ok c2 =>
        by_cases hv : c1 = "" ∨ c2 = ""
        · exact Or.inr (Or.inl (chatbotChat_POST_of_ok (postBody_reject backend h1 h2 hv)))
        · have hc1 : c1 ≠ "" := fun h => hv (Or.inl h)
          have hc2 : c2 ≠ "" := fun h => hv (Or.inr h)
          cases hb : backend (buildCompletionRequest c1 c2) with
          | error e =>
            exact Or.inl ⟨e, [buildCompletionRequest c1 c2],
              chatbotChat_POST_of_error (postBody_backend_error h1 h2 hc1 hc2 hb)⟩
          | ok comp =>
            cases hch : comp.choices with
            | nil =>
              refine Or.inl ⟨"IndexError: list index out of range",
                [buildCompletionRequest c1 c2], chatbotChat_POST_of_error ?_⟩
              have hv2 : ¬ (c1 = "" ∨ c2 = "") := hv
              simp only [postBody, h1, h2, if_neg hv2, hb, hch]
            | cons c rest =>
              exact Or.inr (Or.inr ⟨c.message.content, buildCompletionRequest c1 c2,
                chatbotChat_POST_of_ok (postBody_success h1 h2 hc1 hc2 hb hch)⟩)

theorem appChat_ok_shape {encode : String → List Nat}
    {generate : List Nat → GenParams → List (List Nat)}
    {decode : List Nat → Bool → String}
    {m : Method} {body : Obj} {r : HttpResponse}
    (h : appChat encode generate decode m body = Except.ok r) :
    r = { status := 200
          body := []
          headers := [("Access-Control-Allow-Origin", "*"),
                      ("Access-Control-Allow-Headers", "Content-Type"),
                      ("Access-Control-Allow-Methods", "POST")] }
  ∨ ∃ s o rest, dictGetOpt body "message" = some (JValue.str s) ∧
      generate (encode s) { max_length := 100
                            num_return_sequences := 1
                            no_repeat_ngram_size := 2 } = o :: rest ∧
      r = { status := 200
            body := [("response", JValue.str (decode o true))]
            headers := [("Access-Control-Allow-Origin", "*")] } := by
  cases m with
  | OPTIONS =>
    simp only [appChat] at h
    injection h with h2
    exact Or.inl h2.symm
  | POST =>
    simp only [appChat] at h
    cases hm : dictGetOpt body "message" with
    | none =>
      rw [hm] at h
      exact Except.noConfusion h
    | some v =>
      rw [hm] at h
      cases v with
      | str s =>
        simp only at h
        cases hg : generate (encode s) { max_length := 100
                                         num_return_sequences := 1
                                         no_repeat_ngram_size := 2 } with
        | nil =>
          rw [hg] at h
          exact Except.noConfusion h
        | cons o rest =>
          rw [hg] at h
          injection h with h2
          exact Or.inr ⟨s, o, rest, rfl, hg, h2.symm⟩
      | num n => exact Except.noConfusion h
      | bool b => exact Except.noConfusion h
      | null => exact Except.noConfusion h

/-- Claim C1, counterexample: in the local variant (`src/app.py`), a POST
body whose `message` is whitespace-only is NOT answered with status 400:
the handler performs no validation and returns status 200. -/
theorem C1_counterexample :
    respStatus (appChat demoEncode demoGenerate demoDecode Method.POST
      [("message", JValue.str " ")]) = some 200 ∧
    decide (respStatus (appChat demoEncode demoGenerate demoDecode Method.POST
      [("message", JValue.str " ")]) = some 400) = false := by
  decide

/-- Claim C1, amended: only the remote variant (`src/chatbot.py`) validates:
whenever both country fields strip to strings and at least one strips to the
empty string (covering missing, empty, and whitespace-only fields), it
returns status 400 with an `error` string naming the problem. The local
variant (`src/app.py`) performs no validation: every response it returns
(rather than raising) has status 200, so it never returns 400. -/
theorem C1_amended_validation :
    (∀ (backend : CompletionRequest → Except String Completion) (data : Obj)
       (c1 c2 : String),
      pyStrip (dictGet data "country1" (JValue.str "")) = Except.ok c1 →
      pyStrip (dictGet data "country2" (JValue.str "")) = Except.ok c2 →
      (c1 = "" ∨ c2 = "") →
      chatbotChat backend Method.POST (Except.ok data) =
        ({ status := 400
           body := [("error", JValue.str "Both countries are required")]
           headers := [] }, []))
  ∧ (∀ (encode : String → List Nat) (generate : List Nat → GenParams → List (List Nat))
       (decode : List Nat → Bool → String) (m : Method) (body : Obj) (r : HttpResponse),
      appChat encode generate decode m body = Except.ok r → r.status = 200) := by
  constructor
  · intro backend data c1 c2 h1 h2 hv
    exact chatbotChat_POST_of_ok (postBody_reject backend h1 h2 hv)
  · intro encode generate decode m body r h
    rcases appChat_ok_shape h with rfl | ⟨s, o, rest, hm, hg, rfl⟩ <;> rfl

/-- Claim C1, witness: a concrete whitespace-only `country1` is rejected
with status 400 by the remote variant. -/
theorem C1_witness :
    chatbotChat demoBackend Method.POST
      (Except.ok [("country1", JValue.str "   "), ("country2", JValue.str "Germany")]) =
      ({ status := 400
         body := [("error", JValue.str "Both countries are required")]
         headers := [] }, []) :=
  C1_amended_validation.1 demoBackend
    [("country1", JValue.str "   "), ("country2", JValue.str "Germany")]
    "" "Germany" rfl rfl (Or.inl rfl)

/-- Claim C2: in the remote variant, every exception raised inside the
`try:` block is caught and turned into status 500 with `error` equal to the
exception message (first conjunct); in particular, when the backend call
raises, the response is exactly that 500 envelope, never a 200
(second conjunct). -/
theorem C2_backend_fault_500 :
    (∀ (backend : CompletionRequest → Except String Completion)
       (body : Except String Obj) (e : String) (tr : List CompletionRequest),
      postBody backend body = (Except.error e, tr) →
      chatbotChat backend Method.POST body =
        ({ status := 500, body := [("error", JValue.str e)], headers := [] }, tr))
  ∧ (∀ (backend : CompletionRequest → Except String Completion) (data : Obj)
       (c1 c2 e : String),
      pyStrip (dictGet data "country1" (JValue.str "")) = Except.ok c1 →
      pyStrip (dictGet data "country2" (JValue.str "")) = Except.ok c2 →
      c1 ≠ "" → c2 ≠ "" →
      backend (buildCompletionRequest c1 c2) = Except.error e →
      chatbotChat backend Method.POST (Except.ok data) =
        ({ status := 500, body := [("error", JValue.str e)], headers := [] },
         [buildCompletionRequest c1 c2])) := by
  constructor
  · intro backend body e tr h
    exact chatbotChat_POST_of_error h
  · intro backend data c1 c2 e h1 h2 hc1 hc2 hb
    exact chatbotChat_POST_of_error (postBody_backend_error h1 h2 hc1 hc2 hb)

/-- Claim C2, witness: with a backend that raises `boom` on every call, a
valid request is answered with status 500 and error text `boom`. -/
theorem C2_witness :
    chatbotChat failBackend Method.POST
      (Except.ok [("country1", JValue.str "France"), ("country2", JValue.str "Germany")]) =
      ({ status := 500, body := [("error", JValue.str "boom")], headers := [] },
       [buildCompletionRequest "France" "Germany"]) :=
  C2_backend_fault_500.2 failBackend
    [("country1", JValue.str "France"), ("country2", JValue.str "Germany")]
    "France" "Germany" "boom" rfl rfl (by decide) (by decide) rfl

/-- Claim C3, counterexample: the remote variant answers OPTIONS with body
`{"status": "ok"}`, not with an empty body as the claim states. -/
theorem C3_counterexample :
    (chatbotChat demoBackend Method.OPTIONS (Except.ok [])).1.body =
      [("status", JValue.str "ok")] ∧
    decide ((chatbotChat demoBackend Method.OPTIONS (Except.ok [])).1.body =
      ([] : Obj)) = false := by
  decide

/-- Claim C3, amended: the remote variant answers every OPTIONS request
with status 200, the three CORS headers, and body `{"status": "ok"}`
(not empty). The local variant's route declares `methods=["POST"]` only,
so its handler is not dispatched on OPTIONS at all; its (unreachable)
OPTIONS branch would return status 200 with an empty JSON body and the
three CORS headers. -/
theorem C3_amended_preflight :
    (∀ (backend : CompletionRequest → Except String Completion)
       (body : Except String Obj),
      chatbotChat backend Method.OPTIONS body =
        ({ status := 200
           body := [("status", JValue.str "ok")]
           headers := [("Access-Control-Allow-Origin", "*"),
                       ("Access-Control-Allow-Headers", "Content-Type"),
                       ("Access-Control-Allow-Methods", "POST")] }, []))
  ∧ appChatMethods = [Method.POST]
  ∧ (∀ (encode : String → List Nat) (generate : List Nat → GenParams → List (List Nat))
       (decode : List Nat → Bool → String) (body : Obj),
      appChat encode generate decode Method.OPTIONS body =
        Except.ok { status := 200
                    body := []
                    headers := [("Access-Control-Allow-Origin", "*"),
                                ("Access-Control-Allow-Headers", "Content-Type"),
                                ("Access-Control-Allow-Methods", "POST")] }) :=
  ⟨fun _ _ => rfl, rfl, fun _ _ _ _ => rfl⟩

/-- Claim C4, counterexample: the handlers return the backend text
verbatim, so a backend whose candidate text is empty yields status 200
with an EMPTY `response` string, contradicting the claimed non-emptiness. -/
theorem C4_counterexample :
    (chatbotChat emptyBackend Method.POST
      (Except.ok [("country1", JValue.str "France"), ("country2", JValue.str "Germany")])).1 =
      { status := 200
        body := [("response", JValue.str "")]
        headers := [("Access-Control-Allow-Origin", "*")] } ∧
    String.length "" = 0 := by
  decide

/-- Claim C4, amended: for valid requests whose required fields are
non-empty after trimming, given that the backend returns a candidate text,
both variants return status 200 with a `response` string EQUAL to that text
(hence non-empty exactly when the backend text is non-empty). -/
theorem C4_amended_success :
    (∀ (backend : CompletionRequest → Except String Completion) (data : Obj)
       (c1 c2 : String) (comp : Completion) (c : Choice) (rest : List Choice),
      pyStrip (dictGet data "country1" (JValue.str "")) = Except.ok c1 →
      pyStrip (dictGet data "country2" (JValue.str "")) = Except.ok c2 →
      c1 ≠ "" → c2 ≠ "" →
      backend (buildCompletionRequest c1 c2) = Except.ok comp →
      comp.choices = c :: rest →
      chatbotChat backend Method.POST (Except.ok data) =
        ({ status := 200
           body := [("response", JValue.str c.message.content)]
           headers := [("Access-Control-Allow-Origin", "*")] },
         [buildCompletionRequest c1 c2]))
  ∧ (∀ (encode : String → List Nat) (generate : List Nat → GenParams → List (List Nat))
       (decode : List Nat → Bool → String) (body : Obj) (s : String)
       (o : List Nat) (rest : List (List Nat)),
      dictGetOpt body "message" = some (JValue.str s) →
      pyStripString s ≠ "" →
      generate (encode s) { max_length := 100
                            num_return_sequences := 1
                            no_repeat_ngram_size := 2 } = o :: rest →
      appChat encode generate decode Method.POST body =
        Except.ok { status := 200
                    body := [("response", JValue.str (decode o true))]
                    headers := [("Access-Control-Allow-Origin", "*")] }) := by
  constructor
  · intro backend data c1 c2 comp c rest h1 h2 hc1 hc2 hb hch
    exact chatbotChat_POST_of_ok (postBody_success h1 h2 hc1 hc2 hb hch)
  · intro encode generate decode body s o rest hm _hs hg
    simp only [appChat, hm, hg]

/-- Claim C4, witness: a concrete valid request through the demo backend
produces status 200 with the backend's (non-empty) candidate text. -/
theorem C4_witness :
    chatbotChat demoBackend Method.POST
      (Except.ok [("country1", JValue.str "Japan"), ("country2", JValue.str "Brazil")]) =
      ({ status := 200
         body := [("response", JValue.str "demo analysis text")]
         headers := [("Access-Control-Allow-Origin", "*")] },
       [buildCompletionRequest "Japan" "Brazil"]) :=
  C4_amended_success.1 demoBackend
    [("country1", JValue.str "Japan"), ("country2", JValue.str "Brazil")]
    "Japan" "Brazil"
    { choices := [{ message := { role := "assistant", content := "demo analysis text" } }] }
    { message := { role := "assistant", content := "demo analysis text" } } []
    rfl rfl (by decide) (by decide) rfl rfl

/-- Claim C5, counterexample: the 400 validation response of the remote
variant carries NO handler-attached headers at all — in particular not
`Access-Control-Allow-Origin: *` — because `src/chatbot.py` line 43 returns
the error tuple without calling `response.headers.add`. -/
theorem C5_counterexample :
    (chatbotChat demoBackend Method.POST
      (Except.ok [("country1", JValue.str "France"), ("country2", JValue.str "")])).1.headers
      = [] ∧
    decide (("Access-Control-Allow-Origin", "*") ∈
      (chatbotChat demoBackend Method.POST
        (Except.ok [("country1", JValue.str "France"), ("country2", JValue.str "")])).1.headers)
      = false := by
  decide

/-- Claim C5, amended: the handlers attach `Access-Control-Allow-Origin: *`
on the OPTIONS branch and on the 200 success path (in both variants), but
the remote variant's 400 validation and 500 exception responses attach no
headers at all. -/
theorem C5_amended_cors :
    (∀ (backend : CompletionRequest → Except String Completion)
       (body : Except String Obj),
      ("Access-Control-Allow-Origin", "*") ∈
        (chatbotChat backend Method.OPTIONS body).1.headers)
  ∧ (∀ (backend : CompletionRequest → Except String Completion)
       (body : Except String Obj),
      ((chatbotChat backend Method.POST body).1.status = 200 →
        (chatbotChat backend Method.POST body).1.headers =
          [("Access-Control-Allow-Origin", "*")])
      ∧ ((chatbotChat backend Method.POST body).1.status = 400 →
        (chatbotChat backend Method.POST body).1.headers = [])
      ∧ ((chatbotChat backend Method.POST body).1.status = 500 →
        (chatbotChat backend Method.POST body).1.headers = []))
  ∧ (∀ (encode : String → List Nat) (generate : List Nat → GenParams → List (List Nat))
       (decode : List Nat → Bool → String) (m : Method) (body : Obj) (r : HttpResponse),
      appChat encode generate decode m body = Except.ok r →
      ("Access-Control-Allow-Origin", "*") ∈ r.headers) := by
  refine ⟨fun backend body => ?_, fun backend body => ?_, fun e g d m b r h => ?_⟩
  · exact List.Mem.head _
  · rcases chatbotChat_post_shape backend body with ⟨e, tr, heq⟩ | heq | ⟨t, req, heq⟩ <;>
      rw [heq] <;> refine ⟨fun hs => ?_, fun hs => ?_, fun hs => ?_⟩ <;> simp_all
  · rcases appChat_ok_shape h with rfl | ⟨s, o, rest, hm, hg, rfl⟩ <;> exact List.Mem.head _

/-- Claim C5, witness: a concrete valid request gets the CORS header on its
200 response, and a concrete invalid one gets a 400 response with no
headers. -/
theorem C5_witness :
    (chatbotChat demoBackend Method.POST
      (Except.ok [("country1", JValue.str "India"), ("country2", JValue.str "China")])).1.headers
      = [("Access-Control-Allow-Origin", "*")] :=
  (C5_amended_cors.2.1 demoBackend
    (Except.ok [("country1", JValue.str "India"), ("country2", JValue.str "China")])).1
    (by decide)

/-- Claim C6: for every valid pair of country names the remote variant
calls the backend with exactly one fixed system message plus one user
message, whose text embeds both names inside the fixed four-part template
ending in the `under 400 words` ceiling, with temperature 0.7 and a
500-token ceiling, and returns the first candidate's text as `response`. -/
theorem C6_remote_prompt :
    ∀ (backend : CompletionRequest → Except String Completion) (data : Obj)
      (c1 c2 : String) (comp : Completion) (c : Choice) (rest : List Choice),
      pyStrip (dictGet data "country1" (JValue.str "")) = Except.ok c1 →
      pyStrip (dictGet data "country2" (JValue.str "")) = Except.ok c2 →
      c1 ≠ "" → c2 ≠ "" →
      backend (buildCompletionRequest c1 c2) = Except.ok comp →
      comp.choices = c :: rest →
      chatbotChat backend Method.POST (Except.ok data) =
        ({ status := 200
           body := [("response", JValue.str c.message.content)]
           headers := [("Access-Control-Allow-Origin", "*")] },
         [buildCompletionRequest c1 c2])
      ∧ (buildCompletionRequest c1 c2).messages =
          [systemMessage, { role := "user", content := userPrompt c1 c2 }]
      ∧ (buildCompletionRequest c1 c2).temperature = 0.7
      ∧ (buildCompletionRequest c1 c2).max_tokens = 500
      ∧ userPrompt c1 c2 = promptHead ++ (c1 ++ (promptMid ++ (c2 ++ promptTail)))
      ∧ strContains promptTail "1. Current diplomatic relations" = true
      ∧ strContains promptTail "2. Economic partnerships and trade" = true
      ∧ strContains promptTail "3. Historical context and key events" = true
      ∧ strContains promptTail "4. Current challenges and opportunities" = true
      ∧ strContains promptTail "keep it under 400 words" = true := by
  intro backend data c1 c2 comp c rest h1 h2 hc1 hc2 hb hch
  refine ⟨chatbotChat_POST_of_ok (postBody_success h1 h2 hc1 hc2 hb hch),
    rfl, rfl, rfl, rfl, ?_, ?_, ?_, ?_, ?_⟩ <;>
    set_option maxRecDepth 4000 in decide

/-- Claim C6, witness: the France/Germany scenario through the demo
backend. -/
theorem C6_witness :
    chatbotChat demoBackend Method.POST
      (Except.ok [("country1", JValue.str "France"), ("country2", JValue.str "Germany")]) =
      ({ status := 200
         body := [("response", JValue.str "demo analysis text")]
         headers := [("Access-Control-Allow-Origin", "*")] },
       [buildCompletionRequest "France" "Germany"]) :=
  (C6_remote_prompt demoBackend
    [("country1", JValue.str "France"), ("country2", JValue.str "Germany")]
    "France" "Germany"
    { choices := [{ message := { role := "assistant", content := "demo analysis text" } }] }
    { message := { role := "assistant", content := "demo analysis text" } } []
    rfl rfl (by decide) (by decide) rfl rfl).1

/-- Claim C7: in the local variant, the text encoded is the user message
unchanged, generation is requested with total length bound 100, exactly one
candidate sequence and a no-repeated-2-gram constraint, and the first
output is decoded with special tokens stripped. -/
theorem C7_local_generation :
    ∀ (encode : String → List Nat) (generate : List Nat → GenParams → List (List Nat))
      (decode : List Nat → Bool → String) (body : Obj) (s : String)
      (o : List Nat) (rest : List (List Nat)),
      dictGetOpt body "message" = some (JValue.str s) →
      generate (encode s) { max_length := 100
                            num_return_sequences := 1
                            no_repeat_ngram_size := 2 } = o :: rest →
      appChat encode generate decode Method.POST body =
        Except.ok { status := 200
                    body := [("response", JValue.str (decode o true))]
                    headers := [("Access-Control-Allow-Origin", "*")] } := by
  intro encode generate decode body s o rest hm hg
  simp only [appChat, hm, hg]

/-- Claim C7, witness: the `Hello` scenario through the demo
encode/generate/decode triple. -/
theorem C7_witness :
    appChat demoEncode demoGenerate demoDecode Method.POST
      [("message", JValue.str "Hello")] =
      Except.ok { status := 200
                  body := [("response", JValue.str (demoDecode (demoEncode "Hello") true))]
                  headers := [("Access-Control-Allow-Origin", "*")] } :=
  C7_local_generation demoEncode demoGenerate demoDecode
    [("message", JValue.str "Hello")] "Hello" (demoEncode "Hello") [] rfl rfl

/-- Claim C8: for every backend, the input
`{"country1": "", "country2": "Germany"}` is answered with status 400 and
body exactly `{"error": "Both countries are required"}` (and no backend
call is made). -/
theorem C8_empty_country_400
    (backend : CompletionRequest → Except String Completion) :
    chatbotChat backend Method.POST
      (Except.ok [("country1", JValue.str ""), ("country2", JValue.str "Germany")]) =
      ({ status := 400
         body := [("error", JValue.str "Both countries are required")]
         headers := [] }, []) :=
  chatbotChat_POST_of_ok (postBody_reject backend rfl rfl (Or.inl rfl))

/-- Claim C9: whenever validation fails (either country name strips to the
empty string), the remote variant returns the 400 rejection and the list of
backend calls issued during the request is empty — the generation client is
never invoked. -/
theorem C9_rejected_no_backend_call :
    ∀ (backend : CompletionRequest → Except String Completion) (data : Obj)
      (c1 c2 : String),
      pyStrip (dictGet data "country1" (JValue.str "")) = Except.ok c1 →
      pyStrip (dictGet data "country2" (JValue.str "")) = Except.ok c2 →
      (c1 = "" ∨ c2 = "") →
      chatbotChat backend Method.POST (Except.ok data) =
        ({ status := 400
           body := [("error", JValue.str "Both countries are required")]
           headers := [] }, []) :=
  fun backend _ _ _ h1 h2 hv => chatbotChat_POST_of_ok (postBody_reject backend h1 h2 hv)

/-- Claim C9, witness: even with a backend that would raise on any call,
a whitespace-only `country2` produces the 400 rejection with an empty call
trace, so the backend was never reached. -/
theorem C9_witness :
    chatbotChat failBackend Method.POST
      (Except.ok [("country1", JValue.str "France"), ("country2", JValue.str "  ")]) =
      ({ status := 400
         body := [("error", JValue.str "Both countries are required")]
         headers := [] }, []) :=
  C9_rejected_no_backend_call failBackend
    [("country1", JValue.str "France"), ("country2", JValue.str "  ")]
    "France" "" rfl rfl (Or.inr rfl)

/-- Claim C10: in the remote variant, a present but non-string `country1`
(e.g. a number) makes the `.strip()` call raise inside the catch-all, so
the response is the 500 envelope with the `AttributeError` message — not
the 400 validation error; likewise an unparseable body is answered with
status 500 carrying the parse exception's message. -/
theorem C10_type_errors_500 :
    (∀ (backend : CompletionRequest → Except String Completion) (data : Obj)
       (n : Int),
      dictGet data "country1" (JValue.str "") = JValue.num n →
      chatbotChat backend Method.POST (Except.ok data) =
        ({ status := 500
           body := [("error", JValue.str "AttributeError: object has no attribute strip")]
           headers := [] }, []))
  ∧ (∀ (backend : CompletionRequest → Except String Completion) (e : String),
      chatbotChat backend Method.POST (Except.error e) =
        ({ status := 500
           body := [("error", JValue.str e)]
           headers := [] }, [])) := by
  constructor
  · intro backend data n h
    refine chatbotChat_POST_of_error (postBody_strip1_error backend ?_)
    rw [h]
    rfl
  · intro backend e
    exact chatbotChat_POST_of_error (postBody_parse_error backend e)

/-- Claim C10, witness: `{"country1": 5, "country2": "Germany"}` yields a
500 with the AttributeError message, not a 400. -/
theorem C10_witness :
    chatbotChat demoBackend Method.POST
      (Except.ok [("country1", JValue.num 5), ("country2", JValue.str "Germany")]) =
      ({ status := 500
         body := [("error", JValue.str "AttributeError: object has no attribute strip")]
         headers := [] }, []) :=
  C10_type_errors_500.1 demoBackend
    [("country1", JValue.num 5), ("country2", JValue.str "Germany")] 5 rfl
